import Mathlib

/-!
Verification of the routing engine of the AI Captain route-optimization
backend (`backend/` Python sources) against its natural-language
specification.

The shallow embedding below translates the Python modules into Lean:

* floats are modelled as exact rationals (`ℚ`);
* `networkx` graphs become an explicit structure of node-attribute and
  edge lists; node ids (Python strings `f"{lat:.3f},{lon:.3f}"`) are
  modelled by the pair of 3-decimal quantizations, an injective image of
  the string representation;
* Python dictionaries become association lists;
* attributes read with `dict.get(key, default)` in the source are
  modelled as `Option` fields read with `getD`;
* external collaborators (the `haversine` library, the bathymetry
  adapter, polygon containment tests of `shapely`, the live-weather
  fetch) are parameters of the embedded functions, as they are I/O or
  geometry libraries outside this repository;
* fallible code returns `Except`/`Option`.
-/

/-- Python's `round` (banker's rounding, half to even) on exact rationals. -/
def pyRound (q : ℚ) : ℤ :=
  let f : ℤ := ⌊q⌋
  let frac : ℚ := q - f
  if frac < 1/2 then f
  else if 1/2 < frac then f + 1
  else if f % 2 = 0 then f else f + 1

/-- Node id: models the Python node key `f"{lat:.3f},{lon:.3f}"` by the pair
of 3-decimal quantizations of the two coordinates. -/
abbrev NodeId := ℤ × ℤ

/-- Quantization used to form node ids (`f"{lat:.3f}"` on exact rationals). -/
def quantId (lat lon : ℚ) : NodeId :=
  (pyRound (lat * 1000), pyRound (lon * 1000))

/-- Attributes stored on a graph node (`G.nodes[n]` in the source).
`piracy_risk`, `weather_risk` and `depth_penalty` are always present
(plain fields); the attributes the source reads through `dict.get`
(`traffic_risk`, `geo_base_risk`, `geo_target_flags`, `geo_zones`) are
`Option`s, `none` meaning the key is absent. -/
structure NodeData where
  lat : ℚ
  lon : ℚ
  piracy_risk : ℚ
  weather_risk : ℚ
  depth_penalty : ℚ
  traffic_risk : Option ℚ
  geo_base_risk : Option ℚ
  geo_target_flags : Option (List (String × ℚ))
  geo_zones : Option (List String)
  deriving DecidableEq

instance : Inhabited NodeData :=
  ⟨⟨0, 0, 0, 0, 0, none, none, none, none⟩⟩

/-- A `networkx.Graph`: node-attribute list plus undirected weighted edges
(each edge `(u, v, distance_nm)` stored once, usable in both directions). -/
structure Graph where
  nodes : List (NodeId × NodeData)
  edges : List (NodeId × NodeId × ℚ)
  deriving DecidableEq

/-- `G.nodes[n]` (total: defaults for a missing node, which the source
never queries). -/
def Graph.nodeData (G : Graph) (n : NodeId) : NodeData :=
  ((G.nodes.find? (fun p => p.1 = n)).map Prod.snd).getD default

/-- The edge-attribute dictionary entry `G[u][v]["distance_nm"]`, `none`
when no such edge exists. -/
def Graph.edgeDistance? (G : Graph) (u v : NodeId) : Option ℚ :=
  G.edges.findSome? (fun e =>
    if (e.1 = u ∧ e.2.1 = v) ∨ (e.1 = v ∧ e.2.1 = u) then some e.2.2 else none)

/-- Undirected adjacency of the embedded graph. -/
def Graph.Adj (G : Graph) (u v : NodeId) : Prop :=
  ∃ d, (u, v, d) ∈ G.edges ∨ (v, u, d) ∈ G.edges

/- ## Routing weight function (`backend/routing.py`, `build_weight_function`) -/

/-- Routing mode (`models.RouteRequest.mode`). -/
inductive Mode
  | safe
  | fast
  | balanced
  deriving DecidableEq

/-- The per-mode coefficient table of `build_weight_function`:
`(lambda_p, lambda_w, lambda_d, lambda_t, lambda_geo)`. -/
def lambdas : Mode → ℚ × ℚ × ℚ × ℚ × ℚ
  | .fast => (0, 0, 1, 1/2, 0)
  | .safe => (50, 6, 30, 10, 50)
  | .balanced => (10, 3, 10, 4, 4)

/-- `geopolitical_node_penalty` of `build_weight_function` (identical to
`node_geopolitical_penalty` in `compute_route`): base risk plus the
vessel-flag extra when a flag is known. -/
def geopolitical_node_penalty (G : Graph) (vessel_iso3 : Option String)
    (n : NodeId) : ℚ :=
  let node_data := G.nodeData n
  let base := node_data.geo_base_risk.getD 0
  match vessel_iso3 with
  | none => base
  | some iso3 =>
      let extras := node_data.geo_target_flags.getD []
      base + ((extras.lookup iso3).getD 0)

/-- The edge-cost closure `weight(u, v, attrs)` built by
`build_weight_function(mode, G, vessel_iso3)`.  `attrs` is the edge
attribute dictionary; `attrs.get("distance_nm", 1.0)` becomes `getD 1`. -/
def weight (mode : Mode) (G : Graph) (vessel_iso3 : Option String)
    (u v : NodeId) (attrs : Option ℚ) : ℚ :=
  let l := lambdas mode
  let dist_nm := attrs.getD 1
  let piracy_u := (G.nodeData u).piracy_risk
  let piracy_v := (G.nodeData v).piracy_risk
  let weather_u := (G.nodeData u).weather_risk
  let weather_v := (G.nodeData v).weather_risk
  let depth_u := (G.nodeData u).depth_penalty
  let depth_v := (G.nodeData v).depth_penalty
  let traffic_u := (G.nodeData u).traffic_risk.getD 0
  let traffic_v := (G.nodeData v).traffic_risk.getD 0
  let geo_u := geopolitical_node_penalty G vessel_iso3 u
  let geo_v := geopolitical_node_penalty G vessel_iso3 v
  let piracy_avg := (piracy_u + piracy_v) / 2
  let weather_avg := (weather_u + weather_v) / 2
  let depth_avg := (depth_u + depth_v) / 2
  let traffic_avg := (traffic_u + traffic_v) / 2
  let geo_avg := (geo_u + geo_v) / 2
  dist_nm + l.1 * piracy_avg + l.2.1 * weather_avg + l.2.2.1 * depth_avg
    + l.2.2.2.1 * traffic_avg + l.2.2.2.2 * geo_avg

/- ## Continuous weather penalty (`backend/live_weather.py`) -/

/-- `config.WAVE_HEIGHT_THRESHOLDS_M` — the second assignment in
`config.py` overrides the first, so the effective tuple is `(1.5, 3.0)`. -/
def WAVE_HEIGHT_THRESHOLDS_M : ℚ × ℚ := (3/2, 3)

/-- `config.WIND_SPEED_THRESHOLD_MS`. -/
def WIND_SPEED_THRESHOLD_MS : ℚ := 8

/-- `config.WEATHER_WAVE_WEIGHT`. -/
def WEATHER_WAVE_WEIGHT : ℚ := 6

/-- `config.WEATHER_WIND_WEIGHT`. -/
def WEATHER_WIND_WEIGHT : ℚ := 3

/-- `continuous_weather_penalty(wave_m, wind_ms)`.  `None` samples are
modelled by `none`.  The source's final guard coerces non-finite or
negative accumulations to `0.0`; on exact rationals every value is
finite, so only the `penalty < 0` test remains. -/
def continuous_weather_penalty (wave_m wind_ms : Option ℚ) : ℚ :=
  let wave_thr_start := WAVE_HEIGHT_THRESHOLDS_M.1
  let penalty : ℚ := 0
  let penalty := penalty +
    match wave_m with
    | some w => if wave_thr_start < w then WEATHER_WAVE_WEIGHT * (w - wave_thr_start) else 0
    | none => 0
  let penalty := penalty +
    match wind_ms with
    | some w => if WIND_SPEED_THRESHOLD_MS < w then WEATHER_WIND_WEIGHT * (w - WIND_SPEED_THRESHOLD_MS) else 0
    | none => 0
  if penalty < 0 then 0 else penalty

/- ## Theorems -/

/-- **C1.** The edge cost function is symmetric in its endpoints: for every
graph, every mode, every vessel flag (including none), every pair of nodes
and every edge-attribute dictionary, the weight returned by
`build_weight_function` satisfies `cost(u, v) = cost(v, u)`: each risk term
is the arithmetic mean of the two endpoint attribute values added to the
edge's distance. -/
theorem edge_cost_symmetric (mode : Mode) (G : Graph)
    (vessel_iso3 : Option String) (u v : NodeId) (attrs : Option ℚ) :
    weight mode G vessel_iso3 u v attrs = weight mode G vessel_iso3 v u attrs := by
  unfold weight
  cases mode <;> simp only [lambdas] <;> ring

/-- A weighted hinge term `if thr < w then wgt * (w - thr) else 0` equals
`wgt` times the excess of `w` above `thr` floored at zero. -/
lemma hinge_eq (thr wgt w : ℚ) :
    (if thr < w then wgt * (w - thr) else 0) = wgt * max 0 (w - thr) := by
  rcases le_or_lt w thr with h | h
  · rw [if_neg (not_lt.mpr h), max_eq_left (by linarith), mul_zero]
  · rw [if_pos h, max_eq_right (by linarith)]

/-- Closed form of `continuous_weather_penalty`: the weighted sum of the
zero-floored excesses (an absent sample contributes nothing). -/
lemma continuous_weather_penalty_eq (wave_m wind_ms : Option ℚ) :
    continuous_weather_penalty wave_m wind_ms =
      WEATHER_WAVE_WEIGHT * max 0 ((wave_m.getD WAVE_HEIGHT_THRESHOLDS_M.1) - WAVE_HEIGHT_THRESHOLDS_M.1)
        + WEATHER_WIND_WEIGHT * max 0 ((wind_ms.getD WIND_SPEED_THRESHOLD_MS) - WIND_SPEED_THRESHOLD_MS) := by
  have h0wave : (0:ℚ) ≤ max 0 ((wave_m.getD WAVE_HEIGHT_THRESHOLDS_M.1) - WAVE_HEIGHT_THRESHOLDS_M.1) :=
    le_max_left _ _
  have h0wind : (0:ℚ) ≤ max 0 ((wind_ms.getD WIND_SPEED_THRESHOLD_MS) - WIND_SPEED_THRESHOLD_MS) :=
    le_max_left _ _
  cases wave_m with
  | none =>
      cases wind_ms with
      | none =>
          simp only [continuous_weather_penalty, Option.getD_none]
          norm_num
      | some wind =>
          simp only [continuous_weather_penalty, Option.getD_none, Option.getD_some] at h0wind ⊢
          rw [hinge_eq]
          rw [if_neg (not_lt.mpr (by
            have hwgt : (0:ℚ) ≤ WEATHER_WIND_WEIGHT := by norm_num [WEATHER_WIND_WEIGHT]
            nlinarith [mul_nonneg hwgt h0wind]))]
          norm_num
  | some wave =>
      cases wind_ms with
      | none =>
          simp only [continuous_weather_penalty, Option.getD_none, Option.getD_some] at h0wave ⊢
          rw [hinge_eq]
          rw [if_neg (not_lt.mpr (by
            have hwgt : (0:ℚ) ≤ WEATHER_WAVE_WEIGHT := by norm_num [WEATHER_WAVE_WEIGHT]
            nlinarith [mul_nonneg hwgt h0wave]))]
          norm_num
      | some wind =>
          simp only [continuous_weather_penalty, Option.getD_some] at h0wave h0wind ⊢
          rw [hinge_eq, hinge_eq]
          rw [if_neg (not_lt.mpr (by
            have hwgt1 : (0:ℚ) ≤ WEATHER_WAVE_WEIGHT := by norm_num [WEATHER_WAVE_WEIGHT]
            have hwgt2 : (0:ℚ) ≤ WEATHER_WIND_WEIGHT := by norm_num [WEATHER_WIND_WEIGHT]
            nlinarith [mul_nonneg hwgt1 h0wave, mul_nonneg hwgt2 h0wind]))]
          ring

/-- **C8.** The derived weather penalty is non-negative; it is zero when the
wave height is at or below the wave threshold and the wind speed is at or
below the wind threshold (absent samples contributing nothing); and in
general it equals the weighted sum of the wave excess above its threshold
and the wind excess above its threshold, each excess floored at zero.
(Non-finite coercion is vacuous over exact rationals.) -/
theorem weather_penalty_spec (wave_m wind_ms : Option ℚ) :
    0 ≤ continuous_weather_penalty wave_m wind_ms
    ∧ ((∀ w ∈ wave_m, w ≤ WAVE_HEIGHT_THRESHOLDS_M.1) →
        (∀ w ∈ wind_ms, w ≤ WIND_SPEED_THRESHOLD_MS) →
        continuous_weather_penalty wave_m wind_ms = 0)
    ∧ continuous_weather_penalty wave_m wind_ms =
        WEATHER_WAVE_WEIGHT * max 0 ((wave_m.getD WAVE_HEIGHT_THRESHOLDS_M.1) - WAVE_HEIGHT_THRESHOLDS_M.1)
          + WEATHER_WIND_WEIGHT * max 0 ((wind_ms.getD WIND_SPEED_THRESHOLD_MS) - WIND_SPEED_THRESHOLD_MS) := by
  have heq := continuous_weather_penalty_eq wave_m wind_ms
  have h0wave : (0:ℚ) ≤ max 0 ((wave_m.getD WAVE_HEIGHT_THRESHOLDS_M.1) - WAVE_HEIGHT_THRESHOLDS_M.1) :=
    le_max_left _ _
  have h0wind : (0:ℚ) ≤ max 0 ((wind_ms.getD WIND_SPEED_THRESHOLD_MS) - WIND_SPEED_THRESHOLD_MS) :=
    le_max_left _ _
  refine ⟨?_, ?_, heq⟩
  · rw [heq]
    have hwgt1 : (0:ℚ) ≤ WEATHER_WAVE_WEIGHT := by norm_num [WEATHER_WAVE_WEIGHT]
    have hwgt2 : (0:ℚ) ≤ WEATHER_WIND_WEIGHT := by norm_num [WEATHER_WIND_WEIGHT]
    nlinarith [mul_nonneg hwgt1 h0wave, mul_nonneg hwgt2 h0wind]
  · intro hwave hwind
    rw [heq]
    have hw : max 0 ((wave_m.getD WAVE_HEIGHT_THRESHOLDS_M.1) - WAVE_HEIGHT_THRESHOLDS_M.1) = 0 := by
      cases wave_m with
      | none => simp
      | some w => have := hwave w rfl; simp only [Option.getD_some]; rw [max_eq_left]; linarith
    have hd : max 0 ((wind_ms.getD WIND_SPEED_THRESHOLD_MS) - WIND_SPEED_THRESHOLD_MS) = 0 := by
      cases wind_ms with
      | none => simp
      | some w => have := hwind w rfl; simp only [Option.getD_some]; rw [max_eq_left]; linarith
    rw [hw, hd]
    ring

/-- Witness for C8 at a concrete sample: wave 2.5 m (1 m above the 1.5 m
threshold), wind 10 m/s (2 m/s above the 8 m/s threshold):
penalty 6·1 + 3·2 = 12. -/
theorem weather_penalty_spec_witness :
    0 ≤ continuous_weather_penalty (some (5/2)) (some 10)
    ∧ continuous_weather_penalty (some (5/2)) (some 10) = 12 := by
  refine ⟨(weather_penalty_spec (some (5/2)) (some 10)).1, ?_⟩
  have h := (weather_penalty_spec (some (5/2)) (some 10)).2.2
  rw [h]
  norm_num [WEATHER_WAVE_WEIGHT, WEATHER_WIND_WEIGHT,
    WAVE_HEIGHT_THRESHOLDS_M, WIND_SPEED_THRESHOLD_MS]

/- ## Risk-overlay refresh (`backend/live_weather.py`, `backend/ais_traffic.py`) -/

/-- `config.WEATHER_CELL_SIZE_DEG`. -/
def WEATHER_CELL_SIZE_DEG : ℚ := 2

/-- `config.TRAFFIC_CELL_SIZE_DEG`. -/
def TRAFFIC_CELL_SIZE_DEG : ℚ := 1

/-- `config.GRID_LAT_STEP`. -/
def GRID_LAT_STEP : ℚ := 1/10

/-- `config.GRID_LON_STEP`. -/
def GRID_LON_STEP : ℚ := 1/10

/-- Association-list lookup (a Python `dict.get`). -/
def alookup {α β : Type} [DecidableEq α] : List (α × β) → α → Option β
  | [], _ => none
  | (k, v) :: rest, key => if k = key then some v else alookup rest key

/-- `live_weather._cell_for_latlon`. -/
def weatherCell (lat lon : ℚ) : ℚ × ℚ :=
  ((pyRound (lat / WEATHER_CELL_SIZE_DEG) : ℚ) * WEATHER_CELL_SIZE_DEG,
   (pyRound (lon / WEATHER_CELL_SIZE_DEG) : ℚ) * WEATHER_CELL_SIZE_DEG)

/-- `ais_traffic._cell_for_latlon`. -/
def trafficCell (lat lon : ℚ) : ℚ × ℚ :=
  ((pyRound (lat / TRAFFIC_CELL_SIZE_DEG) : ℚ) * TRAFFIC_CELL_SIZE_DEG,
   (pyRound (lon / TRAFFIC_CELL_SIZE_DEG) : ℚ) * TRAFFIC_CELL_SIZE_DEG)

/-- `update_graph_weather(G)`.  The external fetch
(`fetch_wave_wind_for_cell`, returning `(None, None)` on any upstream
failure) is a parameter.  The source groups nodes into weather cells and
fetches one sample per populated cell; since the penalty assigned to a
node depends only on the node's cell, the per-node formulation below
assigns the identical values and keeps the identical topology. -/
def update_graph_weather (fetch : ℚ × ℚ → Option ℚ × Option ℚ) (G : Graph) : Graph :=
  { G with
    nodes := G.nodes.map (fun p =>
      let cell := weatherCell p.2.lat p.2.lon
      let r := fetch cell
      (p.1, { p.2 with weather_risk := continuous_weather_penalty r.1 r.2 })) }

/-- `ais_traffic.vessel_count_to_risk`. -/
def vessel_count_to_risk (count : Option ℤ) : ℤ :=
  match count with
  | none => 0
  | some c =>
      if c ≤ 0 then 0
      else if c < 3 then 1
      else if c < 10 then 2
      else 3

/-- `update_graph_traffic_from_ais(G, ...)`.  The AIS snapshot
(`_collect_traffic_snapshot_async`, returning the empty dictionary when
the stream cannot be opened, errors, or yields no data) is the
`cell_counts` parameter.  On an empty snapshot the source only fills a
default `0` for nodes lacking the attribute and leaves set values alone;
otherwise it overwrites every node from its cell's count. -/
def update_graph_traffic_from_ais (cell_counts : List ((ℚ × ℚ) × ℤ)) (G : Graph) : Graph :=
  if cell_counts.isEmpty then
    { G with
      nodes := G.nodes.map (fun p =>
        match p.2.traffic_risk with
        | none => (p.1, { p.2 with traffic_risk := some 0 })
        | some v => (p.1, { p.2 with traffic_risk := some v })) }
  else
    { G with
      nodes := G.nodes.map (fun p =>
        let cell := trafficCell p.2.lat p.2.lon
        let count := (alookup cell_counts cell).getD 0
        (p.1, { p.2 with traffic_risk := some (vessel_count_to_risk (some count) : ℚ) })) }

/- ## Geopolitics overlay (`backend/geopolitics.py`, `backend/graph_builder.py`) -/

/-- One entry of the `polygons` list returned by `load_geopolitics_config`:
`(shapely polygon, base_risk, target_flags, zone_id, name, notes)`.
Polygon containment (`poly.contains(Point(lon, lat))`) is abstracted into
the Boolean-valued `contains` field, since the geometry library is an
external collaborator. -/
structure GeoZone where
  contains : ℚ → ℚ → Bool
  base_risk : ℚ
  target_flags : List (String × ℚ)
  zone_id : String
  name : String
  notes : String

/-- Python dictionary assignment `flags[iso] = val`: replace the binding in
place when the key exists, append it otherwise. -/
def updateFlag : List (String × ℚ) → String → ℚ → List (String × ℚ)
  | [], iso, val => [(iso, val)]
  | (k, v) :: rest, iso, val =>
      if k = iso then (k, val) :: rest else (k, v) :: updateFlag rest iso val

/-- The inner per-zone flag merge of `apply_geopolitics_to_graph` (and,
identically, of `build_grid_graph`): for each `(iso, val)` of the zone,
keep the maximum per ISO3. -/
def applyZoneFlags (acc : List (String × ℚ)) (tf : List (String × ℚ)) : List (String × ℚ) :=
  tf.foldl (fun fl p =>
    let current := (alookup fl p.1).getD 0
    if current < p.2 then updateFlag fl p.1 p.2 else fl) acc

/-- The per-node loop body of `apply_geopolitics_to_graph`: fold every zone
containing the point, tracking `(base_max, flags, zones)`. -/
def apply_geopolitics_node (zones : List GeoZone) (lat lon : ℚ) :
    ℚ × List (String × ℚ) × List String :=
  zones.foldl (fun acc z =>
    if z.contains lat lon then
      ((if acc.1 < z.base_risk then z.base_risk else acc.1),
       applyZoneFlags acc.2.1 z.target_flags,
       (if z.zone_id ∈ acc.2.2 then acc.2.2 else acc.2.2 ++ [z.zone_id]))
    else acc) (0, [], [])

/-- `apply_geopolitics_to_graph(G)`.  The source's final `if/else` writes
the computed values in both branches, so the update is unconditional. -/
def apply_geopolitics_to_graph (zones : List GeoZone) (G : Graph) : Graph :=
  { G with
    nodes := G.nodes.map (fun p =>
      let r := apply_geopolitics_node zones p.2.lat p.2.lon
      (p.1, { p.2 with
        geo_base_risk := some r.1
        geo_target_flags := some r.2.1
        geo_zones := some r.2.2 })) }

/-- The geopolitics block of `build_grid_graph` (same merge, without the
zone-id list): `geo_base_risk` by running maximum, `geo_target_flags` by
per-ISO3 maximum. -/
def buildNodeGeo (zones : List GeoZone) (lat lon : ℚ) : ℚ × List (String × ℚ) :=
  zones.foldl (fun acc z =>
    if z.contains lat lon then
      ((if acc.1 < z.base_risk then z.base_risk else acc.1),
       applyZoneFlags acc.2 z.target_flags)
    else acc) (0, [])

/-- The zones whose polygon contains the node. -/
def containingZones (zones : List GeoZone) (lat lon : ℚ) : List GeoZone :=
  zones.filter (fun z => z.contains lat lon)

/-- Maximum extra risk a single zone's `target_flags` dictionary assigns to
`iso` (0 when the flag is absent), as a fold. -/
def flagMax (tf : List (String × ℚ)) (iso : String) : ℚ :=
  tf.foldr (fun p m => if p.1 = iso then max p.2 m else m) 0

/- ## Safety aggregation layer (`backend/safety_layer.py`) -/

/-- `safety_layer`: the weighted raw-risk combination per node. -/
def risk_raw (d : NodeData) : ℚ :=
  d.piracy_risk * 3 + (d.geo_base_risk.getD 0) * 3 + (d.traffic_risk.getD 0) * 2
    + d.depth_penalty * 2 + d.weather_risk * (1/2)

/-- `safety_layer._cell_for_latlon`. -/
def safetyCell (lat lon : ℚ) : ℚ × ℚ :=
  ((pyRound (lat / GRID_LAT_STEP) : ℚ) * GRID_LAT_STEP,
   (pyRound (lon / GRID_LON_STEP) : ℚ) * GRID_LON_STEP)

/-- `buckets.setdefault(cell, []).append(v)`: append to an existing
bucket, else create the bucket at the end (Python dict insertion order). -/
def addToBucket : List ((ℚ × ℚ) × List ℚ) → (ℚ × ℚ) → ℚ → List ((ℚ × ℚ) × List ℚ)
  | [], cell, v => [(cell, [v])]
  | (c, vs) :: rest, cell, v =>
      if c = cell then (c, vs ++ [v]) :: rest else (c, vs) :: addToBucket rest cell v

/-- `build_safety_layer_from_graph(G)`, reduced to the claim-relevant
output: the integer severity assigned to each populated cell (the
rectangle geometry of the emitted `RiskFeature`s is presentation only and
carries no further information).  The `math.isfinite` screens are vacuous
over exact rationals. -/
def build_safety_severities (G : Graph) : List ((ℚ × ℚ) × ℤ) :=
  let buckets := G.nodes.foldl
    (fun bs p => addToBucket bs (safetyCell p.2.lat p.2.lon) (risk_raw p.2)) []
  if buckets.isEmpty then []
  else
    let cell_scores := buckets.map (fun b => (b.1, b.2.sum / (b.2.length : ℚ)))
    let max_score := cell_scores.foldl (fun m p => if m < p.2 then p.2 else m) (-(1000000000 : ℚ))
    let min_score := cell_scores.foldl (fun m p => if p.2 < m then p.2 else m) (1000000000 : ℚ)
    if max_score ≤ min_score then
      cell_scores.map (fun p => (p.1, (3 : ℤ)))
    else
      let span := max_score - min_score
      cell_scores.map (fun p =>
        let norm := (p.2 - min_score) / span
        let sev : ℤ := 1 + pyRound (norm * 4)
        let sev := if sev < 1 then 1 else sev
        let sev := if 5 < sev then 5 else sev
        (p.1, sev))

/-- A one-node graph whose node has weather risk 5 (previously set). -/
def c5Node : NodeData := ⟨0, 0, 0, 5, 0, none, none, none, none⟩

/-- Graph around `c5Node`. -/
def c5Graph : Graph := ⟨[((0, 0), c5Node)], []⟩

/-- A live-weather fetch whose upstream source is unavailable: the source's
`fetch_wave_wind_for_cell` returns `(None, None)` on every failure path. -/
def failingFetch : ℚ × ℚ → Option ℚ × Option ℚ := fun _ => (none, none)

/-- **C5 counterexample.** A weather refresh whose upstream source is
unavailable does not leave the previously set `weather_risk` unchanged:
on a node with `weather_risk = 5`, `update_graph_weather` with a failing
fetch overwrites the attribute with the penalty `0` computed from the
absent samples. -/
theorem weather_refresh_overwrites_on_failure :
    (c5Graph.nodeData (0, 0)).weather_risk = 5
    ∧ ((update_graph_weather failingFetch c5Graph).nodeData (0, 0)).weather_risk = 0
    ∧ (5 : ℚ) ≠ 0 := by
  refine ⟨?_, ?_, by norm_num⟩
  · norm_num [Graph.nodeData, c5Graph, c5Node, List.find?]
  · norm_num [Graph.nodeData, update_graph_weather, failingFetch, c5Graph, c5Node,
      continuous_weather_penalty, weatherCell, List.find?]

/-- **C5 (amended).** On refresh failure the traffic overlay is a frame-
preserving no-op: with an empty AIS snapshot every node whose
`traffic_risk` was previously set is left entirely unchanged.  The weather
overlay, however, does not raise but overwrites: with an unavailable
upstream source every node's `weather_risk` is set to the penalty `0`.
(The geopolitics refresh reads a local file, not a live upstream.) -/
theorem refresh_failure_frame_amended :
    (∀ (G : Graph) (i : NodeId) (d : NodeData) (v : ℚ),
        (i, d) ∈ G.nodes → d.traffic_risk = some v →
        (i, d) ∈ (update_graph_traffic_from_ais [] G).nodes)
    ∧ ∀ (fetch : ℚ × ℚ → Option ℚ × Option ℚ),
        (∀ c, fetch c = (none, none)) →
        ∀ (G : Graph) (i : NodeId) (d : NodeData),
          (i, d) ∈ G.nodes →
          (i, { d with weather_risk := 0 }) ∈ (update_graph_weather fetch G).nodes := by
  constructor
  · intro G i d v hmem htr
    obtain ⟨la, lo, pr, wr, dp, tr, gb, gtf, gz⟩ := d
    simp only at htr
    subst htr
    simp only [update_graph_traffic_from_ais, List.isEmpty_nil, if_pos]
    exact List.mem_map.mpr ⟨_, hmem, rfl⟩
  · intro fetch hf G i d hmem
    refine List.mem_map.mpr ⟨(i, d), hmem, ?_⟩
    obtain ⟨la, lo, pr, wr, dp, tr, gb, gtf, gz⟩ := d
    dsimp only
    rw [hf (weatherCell la lo)]
    norm_num [continuous_weather_penalty]

/-- A one-node graph whose node has a previously set traffic risk. -/
def c5TrafficNode : NodeData := ⟨0, 0, 0, 0, 0, some 2, none, none, none⟩

/-- Graph around `c5TrafficNode`. -/
def c5TrafficGraph : Graph := ⟨[((0, 0), c5TrafficNode)], []⟩

/-- Witness for the amended C5 at concrete graphs: the empty-snapshot
traffic refresh keeps the node with `traffic_risk = some 2` unchanged, and
the failed weather refresh writes `weather_risk = 0` over the value 5. -/
theorem refresh_failure_frame_amended_witness :
    ((0, 0), c5TrafficNode) ∈ (update_graph_traffic_from_ais [] c5TrafficGraph).nodes
    ∧ (((0, 0) : NodeId), { c5Node with weather_risk := 0 })
        ∈ (update_graph_weather failingFetch c5Graph).nodes :=
  ⟨refresh_failure_frame_amended.1 c5TrafficGraph (0, 0) c5TrafficNode 2
      (by simp [c5TrafficGraph]) rfl,
   refresh_failure_frame_amended.2 failingFetch (fun _ => rfl) c5Graph (0, 0) c5Node
      (by simp [c5Graph])⟩

/-- A one-node graph whose single cell score is `3·10^9`, beyond the
source's `±10^9` min/max sentinels. -/
def c4Node : NodeData := ⟨0, 0, 0, 0, 0, none, some 1000000000, none, none⟩

/-- Graph around `c4Node`. -/
def c4Graph : Graph := ⟨[((0, 0), c4Node)], []⟩

/-- **C4 failing input.** In `build_safety_layer_from_graph` the running
minimum and maximum are initialised to the sentinels `1e9` and `-1e9`
instead of the first cell score.  On a graph whose only cell has score
`3·10^9` (every cell score identical, so `globalMax = globalMin`), the
uniform-score branch is not taken: the sentinel `1e9` is mistaken for the
global minimum and the single cell is assigned severity 5, not the
severity 3 promised by the code's own uniform-risk comment and the spec. -/
theorem safety_layer_sentinel_code_bug :
    build_safety_severities c4Graph = [((0, 0), 5)] ∧ (5 : ℤ) ≠ 3 := by
  refine ⟨?_, by norm_num⟩
  norm_num [build_safety_severities, c4Graph, c4Node, addToBucket, safetyCell, risk_raw,
    pyRound, GRID_LAT_STEP, GRID_LON_STEP]

/- ## C6: overlap merge takes maxima -/

/-- `dict.get(iso, 0.0)` on a flags dictionary. -/
def alookupD (fl : List (String × ℚ)) (iso : String) : ℚ :=
  (alookup fl iso).getD 0

/-- The running-maximum idiom `if acc < b then b else acc` is `max`. -/
lemma if_lt_max (a b : ℚ) : (if a < b then b else a) = max a b := by
  rcases lt_or_ge a b with h | h
  · rw [if_pos h, max_eq_right h.le]
  · rw [if_neg (not_lt.mpr h), max_eq_left h]

lemma alookup_updateFlag (fl : List (String × ℚ)) (iso j : String) (v : ℚ) :
    alookup (updateFlag fl iso v) j = if iso = j then some v else alookup fl j := by
  induction fl with
  | nil => simp [updateFlag, alookup]
  | cons hd tl ih =>
      obtain ⟨a, b⟩ := hd
      by_cases ha : a = iso
      · subst ha
        simp only [updateFlag, if_pos rfl, alookup]
        by_cases hj : a = j
        · subst hj; simp
        · simp [hj]
      · simp only [updateFlag, if_neg ha, alookup]
        by_cases hj : a = j
        · subst hj
          have : iso ≠ a := fun h => ha h.symm
          simp [this]
        · simp [hj, ih]

lemma flagMax_nonneg (tf : List (String × ℚ)) (iso : String) : 0 ≤ flagMax tf iso := by
  induction tf with
  | nil => simp [flagMax]
  | cons hd tl ih =>
      simp only [flagMax, List.foldr_cons] at ih ⊢
      split
      · exact le_trans ih (le_max_right _ _)
      · exact ih

lemma flagMax_cons (k : String) (v : ℚ) (tl : List (String × ℚ)) (iso : String) :
    flagMax ((k, v) :: tl) iso = if k = iso then max v (flagMax tl iso) else flagMax tl iso := by
  simp [flagMax]

lemma alookupD_applyZoneFlags (iso : String) :
    ∀ (tf fl : List (String × ℚ)), 0 ≤ alookupD fl iso →
      alookupD (applyZoneFlags fl tf) iso = max (alookupD fl iso) (flagMax tf iso) := by
  intro tf
  induction tf with
  | nil => intro fl h; simp [applyZoneFlags, flagMax, max_eq_left h]
  | cons hd tl ih =>
      intro fl h
      obtain ⟨k, v⟩ := hd
      have hstep : applyZoneFlags fl ((k, v) :: tl) =
          applyZoneFlags (if alookupD fl k < v then updateFlag fl k v else fl) tl := by
        simp [applyZoneFlags, alookupD]
      have hq : alookupD (if alookupD fl k < v then updateFlag fl k v else fl) iso =
          if k = iso ∧ alookupD fl iso < v then v else alookupD fl iso := by
        split_ifs with h1 h2 h3
        · unfold alookupD
          rw [alookup_updateFlag, if_pos h2.1]
          rfl
        · have hk : k ≠ iso := fun he => h2 ⟨he, by rw [← he]; exact h1⟩
          unfold alookupD
          rw [alookup_updateFlag, if_neg hk]
        · exact absurd (by rw [h3.1]; exact h3.2) h1
        · rfl
      have h' : 0 ≤ alookupD (if alookupD fl k < v then updateFlag fl k v else fl) iso := by
        rw [hq]; split
        · rename_i hcond; exact le_of_lt (lt_of_le_of_lt h hcond.2)
        · exact h
      rw [hstep, ih _ h', hq, flagMax_cons]
      by_cases hk : k = iso
      · subst hk
        by_cases hv : alookupD fl k < v
        · rw [if_pos ⟨rfl, hv⟩, if_pos rfl]
          exact (sup_eq_right.mpr (le_trans hv.le le_sup_left)).symm
        · have hvle : v ≤ alookupD fl k := not_lt.mp hv
          rw [if_neg (fun hc => hv hc.2), if_pos rfl]
          rw [← sup_assoc, sup_eq_left.mpr hvle]
      · rw [if_neg (fun hc => hk hc.1), if_neg hk]

lemma foldl_if_filter {α β : Type} (p : α → Bool) (g : β → α → β) :
    ∀ (l : List α) (b : β),
      List.foldl (fun acc z => if p z then g acc z else acc) b l
        = List.foldl g b (l.filter p) := by
  intro l
  induction l with
  | nil => intro b; rfl
  | cons hd tl ih =>
      intro b
      cases hp : p hd <;> simp [List.filter_cons, hp, ih]

lemma foldr_max_nonneg {α : Type} (f : α → ℚ) (l : List α) :
    0 ≤ List.foldr (fun z m => max (f z) m) 0 l := by
  induction l with
  | nil => simp
  | cons hd tl ih => exact le_trans ih (le_max_right _ _)

lemma foldl_max_eq {α : Type} (f : α → ℚ) :
    ∀ (l : List α) (b : ℚ), 0 ≤ b →
      List.foldl (fun acc z => max acc (f z)) b l
        = max b (List.foldr (fun z m => max (f z) m) 0 l) := by
  intro l
  induction l with
  | nil => intro b h; simp [max_eq_left h]
  | cons hd tl ih =>
      intro b h
      rw [List.foldl_cons, List.foldr_cons, ih (max b (f hd)) (le_trans h (le_max_left _ _)),
        max_assoc]

lemma foldl_flags_eq (iso : String) :
    ∀ (zs : List GeoZone) (fl : List (String × ℚ)), 0 ≤ alookupD fl iso →
      alookupD (List.foldl (fun fl z => applyZoneFlags fl z.target_flags) fl zs) iso
        = max (alookupD fl iso)
            (zs.foldr (fun z m => max (flagMax z.target_flags iso) m) 0) := by
  intro zs
  induction zs with
  | nil => intro fl h; simp [max_eq_left h]
  | cons hd tl ih =>
      intro fl h
      have hB := alookupD_applyZoneFlags iso hd.target_flags fl h
      have h' : 0 ≤ alookupD (applyZoneFlags fl hd.target_flags) iso := by
        rw [hB]; exact le_trans h (le_max_left _ _)
      rw [List.foldl_cons, List.foldr_cons, ih _ h', hB, max_assoc]

/-- The node-level content of C6: after folding all zones, the base risk is
the maximum base risk over the containing zones and each flag's extra is
the per-flag maximum over the containing zones (both folds floored at the
initial value `0`; base risks and extras are non-negative in the data
model, so the floor is immaterial).  Stated for both
`apply_geopolitics_to_graph`'s and `build_grid_graph`'s merge. -/
lemma geo_node_spec (zones : List GeoZone) (lat lon : ℚ) (iso : String) :
    (apply_geopolitics_node zones lat lon).1
        = (containingZones zones lat lon).foldr (fun z m => max z.base_risk m) 0
    ∧ alookupD (apply_geopolitics_node zones lat lon).2.1 iso
        = (containingZones zones lat lon).foldr (fun z m => max (flagMax z.target_flags iso) m) 0
    ∧ (buildNodeGeo zones lat lon).1
        = (containingZones zones lat lon).foldr (fun z m => max z.base_risk m) 0
    ∧ alookupD (buildNodeGeo zones lat lon).2 iso
        = (containingZones zones lat lon).foldr (fun z m => max (flagMax z.target_flags iso) m) 0 := by
  have hfst : ∀ (zs : List GeoZone) (acc : ℚ × List (String × ℚ) × List String),
      (List.foldl (fun acc z =>
        if z.contains lat lon then
          ((if acc.1 < z.base_risk then z.base_risk else acc.1),
           applyZoneFlags acc.2.1 z.target_flags,
           (if z.zone_id ∈ acc.2.2 then acc.2.2 else acc.2.2 ++ [z.zone_id]))
        else acc) acc zs).1
      = List.foldl (fun b z => if z.contains lat lon then max b z.base_risk else b) acc.1 zs := by
    intro zs
    induction zs with
    | nil => intro acc; rfl
    | cons hd tl ih =>
        intro acc
        rw [List.foldl_cons, List.foldl_cons, ih]
        by_cases hc : hd.contains lat lon
        · simp [hc, if_lt_max]
        · simp [hc]
  have hsnd : ∀ (zs : List GeoZone) (acc : ℚ × List (String × ℚ) × List String),
      (List.foldl (fun acc z =>
        if z.contains lat lon then
          ((if acc.1 < z.base_risk then z.base_risk else acc.1),
           applyZoneFlags acc.2.1 z.target_flags,
           (if z.zone_id ∈ acc.2.2 then acc.2.2 else acc.2.2 ++ [z.zone_id]))
        else acc) acc zs).2.1
      = List.foldl (fun fl z => if z.contains lat lon then applyZoneFlags fl z.target_flags else fl) acc.2.1 zs := by
    intro zs
    induction zs with
    | nil => intro acc; rfl
    | cons hd tl ih =>
        intro acc
        rw [List.foldl_cons, List.foldl_cons, ih]
        by_cases hc : hd.contains lat lon
        · simp [hc]
        · simp [hc]
  have hfst2 : ∀ (zs : List GeoZone) (acc : ℚ × List (String × ℚ)),
      (List.foldl (fun acc z =>
        if z.contains lat lon then
          ((if acc.1 < z.base_risk then z.base_risk else acc.1),
           applyZoneFlags acc.2 z.target_flags)
        else acc) acc zs).1
      = List.foldl (fun b z => if z.contains lat lon then max b z.base_risk else b) acc.1 zs := by
    intro zs
    induction zs with
    | nil => intro acc; rfl
    | cons hd tl ih =>
        intro acc
        rw [List.foldl_cons, List.foldl_cons, ih]
        by_cases hc : hd.contains lat lon
        · simp [hc, if_lt_max]
        · simp [hc]
  have hsnd2 : ∀ (zs : List GeoZone) (acc : ℚ × List (String × ℚ)),
      (List.foldl (fun acc z =>
        if z.contains lat lon then
          ((if acc.1 < z.base_risk then z.base_risk else acc.1),
           applyZoneFlags acc.2 z.target_flags)
        else acc) acc zs).2
      = List.foldl (fun fl z => if z.contains lat lon then applyZoneFlags fl z.target_flags else fl) acc.2 zs := by
    intro zs
    induction zs with
    | nil => intro acc; rfl
    | cons hd tl ih =>
        intro acc
        rw [List.foldl_cons, List.foldl_cons, ih]
        by_cases hc : hd.contains lat lon
        · simp [hc]
        · simp [hc]
  have hbase : List.foldl (fun b z => if z.contains lat lon then max b z.base_risk else b)
        (0 : ℚ) zones
      = (containingZones zones lat lon).foldr (fun z m => max z.base_risk m) 0 := by
    rw [foldl_if_filter (fun z => z.contains lat lon) (fun b z => max b z.base_risk) zones 0]
    rw [foldl_max_eq GeoZone.base_risk _ 0 le_rfl]
    rw [max_eq_right (foldr_max_nonneg _ _)]
    rfl
  have hflags : alookupD (List.foldl
        (fun fl z => if z.contains lat lon then applyZoneFlags fl z.target_flags else fl)
        ([] : List (String × ℚ)) zones) iso
      = (containingZones zones lat lon).foldr (fun z m => max (flagMax z.target_flags iso) m) 0 := by
    rw [foldl_if_filter (fun z => z.contains lat lon)
      (fun fl z => applyZoneFlags fl z.target_flags) zones []]
    rw [foldl_flags_eq iso _ [] (by simp [alookupD, alookup])]
    have h0 : alookupD [] iso = 0 := rfl
    rw [h0, max_eq_right (foldr_max_nonneg _ _)]
    rfl
  refine ⟨?_, ?_, ?_, ?_⟩
  · rw [apply_geopolitics_node, hfst, hbase]
  · rw [apply_geopolitics_node, hsnd, hflags]
  · rw [buildNodeGeo, hfst2, hbase]
  · rw [buildNodeGeo, hsnd2, hflags]

/-- **C6.** For every node of a graph annotated by the geopolitics overlay,
`geo_base_risk` equals the maximum base risk over the zones containing the
node and each `geo_target_flags` entry (read as `dict.get(iso, 0.0)`)
equals the maximum extra risk for that flag over the containing zones,
taken independently per flag — never the sum.  The identical merge rule of
`build_grid_graph` is asserted alongside. -/
theorem geopolitics_overlap_max_merge (zones : List GeoZone) (G : Graph) :
    (∀ (i : NodeId) (d : NodeData),
      (i, d) ∈ (apply_geopolitics_to_graph zones G).nodes →
        d.geo_base_risk
          = some ((containingZones zones d.lat d.lon).foldr (fun z m => max z.base_risk m) 0)
        ∧ ∀ iso, alookupD (d.geo_target_flags.getD []) iso
          = (containingZones zones d.lat d.lon).foldr (fun z m => max (flagMax z.target_flags iso) m) 0)
    ∧ ∀ (lat lon : ℚ) (iso : String),
        (buildNodeGeo zones lat lon).1
          = (containingZones zones lat lon).foldr (fun z m => max z.base_risk m) 0
        ∧ alookupD (buildNodeGeo zones lat lon).2 iso
          = (containingZones zones lat lon).foldr (fun z m => max (flagMax z.target_flags iso) m) 0 := by
  constructor
  · intro i d hmem
    simp only [apply_geopolitics_to_graph, List.mem_map] at hmem
    obtain ⟨⟨i0, d0⟩, hmem0, heq⟩ := hmem
    have hi : i0 = i := congrArg Prod.fst heq
    have hd : ({ d0 with
        geo_base_risk := some (apply_geopolitics_node zones d0.lat d0.lon).1
        geo_target_flags := some (apply_geopolitics_node zones d0.lat d0.lon).2.1
        geo_zones := some (apply_geopolitics_node zones d0.lat d0.lon).2.2 } : NodeData) = d :=
      congrArg Prod.snd heq
    subst hd
    constructor
    · exact congrArg some (geo_node_spec zones d0.lat d0.lon "").1
    · intro iso
      simpa using (geo_node_spec zones d0.lat d0.lon iso).2.1
  · intro lat lon iso
    exact ⟨(geo_node_spec zones lat lon iso).2.2.1, (geo_node_spec zones lat lon iso).2.2.2⟩

/-- Two overlapping zones used in the C6 witness. -/
def zW1 : GeoZone := ⟨fun _ _ => true, 1, [("USA", 3)], "z1", "Zone 1", ""⟩

/-- Second overlapping zone (higher base, lower "USA" extra, extra flag). -/
def zW2 : GeoZone := ⟨fun _ _ => true, 2, [("USA", 1), ("PAN", 4)], "z2", "Zone 2", ""⟩

/-- Fresh node for the C6 witness. -/
def geoWNode : NodeData := ⟨0, 0, 0, 0, 0, none, none, none, none⟩

/-- Graph around `geoWNode`. -/
def geoWGraph : Graph := ⟨[((0, 0), geoWNode)], []⟩

/-- The node after the geopolitics overlay on the two overlapping zones. -/
def geoWUpdated : NodeData :=
  ⟨0, 0, 0, 0, 0, none, some 2, some [("USA", 3), ("PAN", 4)], some ["z1", "z2"]⟩

/-- Witness for C6 at the two concrete overlapping zones: base risk is
`max 1 2 = 2` (not `3`), the "USA" extra is `max 3 1 = 3` (not `4`), the
"PAN" extra is `4` — each flag independently. -/
theorem geopolitics_overlap_max_merge_witness :
    geoWUpdated.geo_base_risk = some 2
    ∧ alookupD (geoWUpdated.geo_target_flags.getD []) "USA" = 3
    ∧ alookupD (geoWUpdated.geo_target_flags.getD []) "PAN" = 4 := by
  have s1 : ("USA" : String) ≠ "PAN" := by decide
  have s2 : ("PAN" : String) ≠ "USA" := by decide
  have s3 : ("z2" : String) ≠ "z1" := by decide
  have hmem : (((0, 0) : NodeId), geoWUpdated)
      ∈ (apply_geopolitics_to_graph [zW1, zW2] geoWGraph).nodes := by
    norm_num [apply_geopolitics_to_graph, apply_geopolitics_node, applyZoneFlags, updateFlag,
      alookup, alookupD, geoWGraph, geoWNode, geoWUpdated, zW1, zW2, s1, s2, s3]
  have h := (geopolitics_overlap_max_merge [zW1, zW2] geoWGraph).1 (0, 0) geoWUpdated hmem
  refine ⟨?_, ?_, ?_⟩
  · rw [h.1]
    norm_num [containingZones, zW1, zW2, geoWUpdated, max_def]
  · rw [h.2 "USA"]
    norm_num [containingZones, flagMax, zW1, zW2, geoWUpdated, max_def, s1, s2, s3]
  · rw [h.2 "PAN"]
    norm_num [containingZones, flagMax, zW1, zW2, geoWUpdated, max_def, s1, s2, s3]

/- ## Router (`backend/routing.py`, `backend/models.py`) -/

/-- `models.Port`. -/
structure Port where
  id : String
  name : String
  country : String
  latitude : ℚ
  longitude : ℚ

/-- The `type` literal of `models.OriginDestination`. -/
inductive ODType
  | port
  | coordinates
  deriving DecidableEq

/-- `models.OriginDestination`. -/
structure OriginDestination where
  type : ODType
  portId : Option String
  latitude : Option ℚ
  longitude : Option ℚ

/-- `models.RouteConstraints` (declared, advisory). -/
structure RouteConstraints where
  maxDraftMeters : Option ℚ
  maxPiracyRisk : Option ℤ
  departureTime : Option String

/-- `models.RouteRequest`. -/
structure RouteRequest where
  origin : OriginDestination
  destination : OriginDestination
  mode : Mode
  constraints : Option RouteConstraints

/-- `models.RouteSegment` — exactly the fields the source emits:
`from`, `to`, `distanceNm`, `weatherRisk`, `piracyRisk`, `depthPenalty`. -/
structure RouteSegment where
  from_ : ℚ × ℚ
  to_ : ℚ × ℚ
  distanceNm : ℚ
  weatherRisk : ℚ
  piracyRisk : ℚ
  depthPenalty : ℚ
  deriving DecidableEq

/-- `models.RouteSummary`. -/
structure RouteSummary where
  originPortId : Option String
  destinationPortId : Option String
  mode : Mode
  totalDistanceNm : ℚ
  estimatedDurationHours : ℚ
  totalWeatherRisk : ℚ
  totalPiracyRisk : ℚ
  totalDepthPenalty : ℚ
  totalTrafficRisk : ℚ
  totalGeopoliticalRisk : ℚ

/-- `models.RoutePath`. -/
structure RoutePath where
  coordinates : List (ℚ × ℚ)
  segments : List RouteSegment

/-- `models.RouteResponse`.  The free-text `explanation`
(`build_explanation`, human-readable strings assembled from the summary
with Python float formatting) is presentation-only and not modelled. -/
structure RouteResponse where
  status : String
  summary : RouteSummary
  path : RoutePath

/-- The error taxonomy of `compute_route` as surfaced by `main.route`:
`ValueError` (unknown port id, missing coordinates) maps to the
`INVALID_REQUEST` response; `networkx.NodeNotFound` and
`networkx.NetworkXNoPath` are distinct exception classes that fall through
to the generic handler. -/
inductive RouteError
  | invalidRequest (msg : String)
  | nodeNotFound
  | noPathFound
  deriving DecidableEq

/-- `_resolve_origin_or_destination(od, ports)`. -/
def resolveOD (od : OriginDestination) (ports : List (String × Port)) :
    Except RouteError (ℚ × ℚ) :=
  match od.type with
  | .port =>
      match od.portId with
      | none => .error (.invalidRequest "Port not found")
      | some pid =>
          match alookup ports pid with
          | none => .error (.invalidRequest "Port not found")
          | some p => .ok (p.latitude, p.longitude)
  | .coordinates =>
      match od.latitude, od.longitude with
      | some la, some lo => .ok (la, lo)
      | _, _ => .error (.invalidRequest "Latitude/longitude required for coordinates type")

/-- `find_closest_node(G, lat, lon)`: linear scan keeping the minimum
haversine distance (strict `<`, so the first node wins ties); the initial
`inf` best distance is modelled by `none`.  The haversine function is an
external library, passed as the parameter `hav`. -/
def find_closest_node (hav : ℚ → ℚ → ℚ → ℚ → ℚ) (G : Graph) (lat lon : ℚ) :
    Option NodeId :=
  (G.nodes.foldl (fun acc p =>
      let d := hav lat lon p.2.lat p.2.lon
      match acc.2 with
      | none => (some p.1, some d)
      | some best => if d < best then (some p.1, some d) else acc)
    ((none : Option NodeId), (none : Option ℚ))).1

/-- `_infer_vessel_iso3(route_request, ports)` together with
`infer_vessel_iso3_from_origin_country`: the country-alias table from the
geopolitics GeoJSON is the `aliases` parameter (the source's
`country.strip()` is the identity on the exact keys modelled here). -/
def infer_vessel_iso3 (aliases : List (String × String)) (rq : RouteRequest)
    (ports : List (String × Port)) : Option String :=
  if rq.origin.type = ODType.port then
    match rq.origin.portId with
    | none => none
    | some pid =>
        match alookup ports pid with
        | none => none
        | some p => alookup aliases p.country
  else none

/-- Neighbours of `u` in the undirected edge list. -/
def adjacencyList (G : Graph) (u : NodeId) : List NodeId :=
  G.edges.filterMap (fun e =>
    if e.1 = u then some e.2.1
    else if e.2.1 = u then some e.1
    else none)

/-- Model of the library call `nx.shortest_path(G, origin, dest, weight)`:
a fuel-bounded depth-first search returning a path (`none` models the
`NetworkXNoPath` exception).  The claims under verification depend on the
call only through (a) failure exactly when the endpoints are disconnected
— of which the needed direction, soundness of a returned path, is proved
below — and (b) the trivial path `[origin]` when `origin = dest`; they
never depend on which minimal-cost path Dijkstra selects. -/
def dfsPath (G : Graph) (dst : NodeId) : Nat → List NodeId → NodeId → Option (List NodeId)
  | 0, _, _ => none
  | fuel + 1, visited, cur =>
      if cur = dst then some [cur]
      else (adjacencyList G cur).findSome? (fun nb =>
        if nb ∈ visited then none
        else (dfsPath G dst fuel (cur :: visited) nb).map (cur :: ·))

/-- The per-segment quantities computed in `compute_route`'s walk over
consecutive path nodes: the edge's `distance_nm` and the five averaged
risks (the same averages as the cost function). -/
structure SegCalc where
  dist : ℚ
  piracy : ℚ
  weather : ℚ
  depth : ℚ
  traffic : ℚ
  geo : ℚ
  deriving DecidableEq

/-- One iteration of the segment walk for the pair `(prev, node)`.
`G[prev][node]["distance_nm"]` is read with default `0`; on any path the
pathfinder returns, consecutive nodes are adjacent so the edge exists. -/
def segCalc (G : Graph) (vessel : Option String) (u v : NodeId) : SegCalc :=
  let prev_data := G.nodeData u
  let node_data := G.nodeData v
  { dist := (G.edgeDistance? u v).getD 0
    piracy := (prev_data.piracy_risk + node_data.piracy_risk) / 2
    weather := (prev_data.weather_risk + node_data.weather_risk) / 2
    depth := (prev_data.depth_penalty + node_data.depth_penalty) / 2
    traffic := (prev_data.traffic_risk.getD 0 + node_data.traffic_risk.getD 0) / 2
    geo := (geopolitical_node_penalty G vessel u + geopolitical_node_penalty G vessel v) / 2 }

/-- Consecutive pairs of a node sequence. -/
def consecPairs {α : Type} (l : List α) : List (α × α) := l.zip l.tail

/-- The `RouteSegment` emitted for the pair `(prev, node)`. -/
def mkSegment (G : Graph) (vessel : Option String) (u v : NodeId) : RouteSegment :=
  let s := segCalc G vessel u v
  { from_ := ((G.nodeData u).lat, (G.nodeData u).lon)
    to_ := ((G.nodeData v).lat, (G.nodeData v).lon)
    distanceNm := s.dist
    weatherRisk := s.weather
    piracyRisk := s.piracy
    depthPenalty := s.depth }

/-- The response-assembly tail of `compute_route`: walk the node sequence,
accumulate the distance-weighted sums, normalise by total distance when it
is positive, and assemble summary and path. -/
def buildRouteResponse (G : Graph) (vessel : Option String) (rq : RouteRequest)
    (path_nodes : List NodeId) (default_speed_knots : ℚ) : RouteResponse :=
  let coordinates := path_nodes.map (fun n => ((G.nodeData n).lat, (G.nodeData n).lon))
  let segs := (consecPairs path_nodes).map (fun p => segCalc G vessel p.1 p.2)
  let segments := (consecPairs path_nodes).map (fun p => mkSegment G vessel p.1 p.2)
  let total_distance_nm := (segs.map SegCalc.dist).sum
  let sum_piracy_len := (segs.map (fun s => s.piracy * s.dist)).sum
  let sum_weather_len := (segs.map (fun s => s.weather * s.dist)).sum
  let sum_depth_len := (segs.map (fun s => s.depth * s.dist)).sum
  let sum_traffic_len := (segs.map (fun s => s.traffic * s.dist)).sum
  let sum_geo_len := (segs.map (fun s => s.geo * s.dist)).sum
  let avg_piracy := if 0 < total_distance_nm then sum_piracy_len / total_distance_nm else 0
  let avg_weather := if 0 < total_distance_nm then sum_weather_len / total_distance_nm else 0
  let avg_depth := if 0 < total_distance_nm then sum_depth_len / total_distance_nm else 0
  let avg_traffic := if 0 < total_distance_nm then sum_traffic_len / total_distance_nm else 0
  let avg_geo := if 0 < total_distance_nm then sum_geo_len / total_distance_nm else 0
  let estimated_duration_hours :=
    if 0 < default_speed_knots then total_distance_nm / default_speed_knots else 0
  { status := "ok"
    summary :=
      { originPortId := if rq.origin.type = ODType.port then rq.origin.portId else none
        destinationPortId := if rq.destination.type = ODType.port then rq.destination.portId else none
        mode := rq.mode
        totalDistanceNm := total_distance_nm
        estimatedDurationHours := estimated_duration_hours
        totalWeatherRisk := avg_weather
        totalPiracyRisk := avg_piracy
        totalDepthPenalty := avg_depth
        totalTrafficRisk := avg_traffic
        totalGeopoliticalRisk := avg_geo }
    path := { coordinates := coordinates, segments := segments } }

/-- `compute_route(G, route_request, ports, default_speed_knots)`. -/
def compute_route (hav : ℚ → ℚ → ℚ → ℚ → ℚ) (aliases : List (String × String))
    (G : Graph) (rq : RouteRequest) (ports : List (String × Port))
    (default_speed_knots : ℚ) : Except RouteError RouteResponse :=
  match resolveOD rq.origin ports with
  | .error e => .error e
  | .ok olatlon =>
    match resolveOD rq.destination ports with
    | .error e => .error e
    | .ok dlatlon =>
      match find_closest_node hav G olatlon.1 olatlon.2,
            find_closest_node hav G dlatlon.1 dlatlon.2 with
      | some origin_node, some dest_node =>
          let vessel := infer_vessel_iso3 aliases rq ports
          match dfsPath G dest_node (G.nodes.length + 1) [] origin_node with
          | none => .error .noPathFound
          | some path_nodes =>
              .ok (buildRouteResponse G vessel rq path_nodes default_speed_knots)
      | _, _ => .error .nodeNotFound

/- ## Routing theorems -/

lemma mem_adjacencyList_adj {G : Graph} {u nb : NodeId}
    (h : nb ∈ adjacencyList G u) : G.Adj u nb := by
  simp only [adjacencyList, List.mem_filterMap] at h
  obtain ⟨⟨a, b, c⟩, he, hsome⟩ := h
  by_cases h1 : a = u
  · rw [if_pos h1] at hsome
    obtain rfl : b = nb := Option.some_injective _ hsome
    exact ⟨c, Or.inl (h1 ▸ he)⟩
  · rw [if_neg h1] at hsome
    by_cases h2 : b = u
    · rw [if_pos h2] at hsome
      obtain rfl : a = nb := Option.some_injective _ hsome
      exact ⟨c, Or.inr (h2 ▸ he)⟩
    · rw [if_neg h2] at hsome
      cases hsome

/-- A path returned by the pathfinder connects its endpoints: soundness of
the `nx.shortest_path` model with respect to graph reachability. -/
lemma dfsPath_sound (G : Graph) (dst : NodeId) :
    ∀ (fuel : Nat) (visited : List NodeId) (cur : NodeId) (p : List NodeId),
      dfsPath G dst fuel visited cur = some p →
      Relation.ReflTransGen G.Adj cur dst := by
  intro fuel
  induction fuel with
  | zero => intro _ _ _ h; simp [dfsPath] at h
  | succ n ih =>
      intro visited cur p h
      rw [dfsPath] at h
      by_cases hc : cur = dst
      · subst hc; exact Relation.ReflTransGen.refl
      · rw [if_neg hc] at h
        obtain ⟨l1, nb, l2, hsplit, hsome, -⟩ := List.findSome?_eq_some_iff.mp h
        have hnb : nb ∈ adjacencyList G cur :=
          hsplit ▸ List.mem_append_right _ (List.mem_cons_self _ _)
        by_cases hv : nb ∈ visited
        · rw [if_pos hv] at hsome; cases hsome
        · rw [if_neg hv] at hsome
          obtain ⟨q, hq, -⟩ := Option.map_eq_some'.mp hsome
          exact Relation.ReflTransGen.head (mem_adjacencyList_adj hnb)
            (ih (cur :: visited) nb q hq)

/-- **C2.** Whenever the snapped origin and destination nodes lie in
different connected components of the graph, `compute_route` fails with
the no-path error (the `NetworkXNoPath` exception), which is distinct from
every invalid-request (`ValueError`) error, and it never returns any
response — partial or otherwise. -/
theorem no_path_found_on_disconnection
    (hav : ℚ → ℚ → ℚ → ℚ → ℚ) (aliases : List (String × String)) (G : Graph)
    (rq : RouteRequest) (ports : List (String × Port)) (speed : ℚ)
    (olat olon dlat dlon : ℚ) (onode dnode : NodeId)
    (hro : resolveOD rq.origin ports = .ok (olat, olon))
    (hrd : resolveOD rq.destination ports = .ok (dlat, dlon))
    (hfo : find_closest_node hav G olat olon = some onode)
    (hfd : find_closest_node hav G dlat dlon = some dnode)
    (hdisc : ¬ Relation.ReflTransGen G.Adj onode dnode) :
    compute_route hav aliases G rq ports speed = .error .noPathFound
    ∧ (∀ msg, RouteError.noPathFound ≠ RouteError.invalidRequest msg)
    ∧ (∀ resp, compute_route hav aliases G rq ports speed ≠ .ok resp) := by
  have hdfs : dfsPath G dnode (G.nodes.length + 1) [] onode = none := by
    cases hd : dfsPath G dnode (G.nodes.length + 1) [] onode with
    | none => rfl
    | some p => exact absurd (dfsPath_sound G dnode _ [] onode p hd) hdisc
  have hmain : compute_route hav aliases G rq ports speed = .error .noPathFound := by
    simp only [compute_route, hro, hrd, hfo, hfd, hdfs]
  refine ⟨hmain, fun msg h => RouteError.noConfusion h, fun resp h => ?_⟩
  rw [hmain] at h
  cases h

/-- Second node (disconnected) for the C2 witness. -/
def c2NodeB : NodeData := ⟨10, 0, 0, 0, 0, none, none, none, none⟩

/-- A two-node graph with no edges: two connected components. -/
def c2Graph : Graph := ⟨[((0, 0), geoWNode), ((100, 0), c2NodeB)], []⟩

/-- Coordinates-to-coordinates request between the two components. -/
def c2Request : RouteRequest :=
  ⟨⟨ODType.coordinates, none, some 0, some 0⟩,
   ⟨ODType.coordinates, none, some 10, some 0⟩, Mode.balanced, none⟩

/-- A concrete distance function standing in for the haversine library in
witnesses (squared Euclidean distance; only relative order matters to the
nearest-node scan). -/
def havW : ℚ → ℚ → ℚ → ℚ → ℚ := fun a b c d => (a - c) ^ 2 + (b - d) ^ 2

/-- Witness for C2 on the concrete disconnected two-node graph. -/
theorem no_path_found_on_disconnection_witness :
    compute_route havW [] c2Graph c2Request [] 20 = .error .noPathFound := by
  have hdisc : ¬ Relation.ReflTransGen c2Graph.Adj (0, 0) (100, 0) := by
    intro h
    rcases Relation.ReflTransGen.cases_head h with heq | ⟨c, hadj, -⟩
    · exact absurd heq (by decide)
    · obtain ⟨d, hd⟩ := hadj
      rcases hd with hm | hm <;> exact absurd hm (List.not_mem_nil _)
  refine (no_path_found_on_disconnection havW [] c2Graph c2Request [] 20
      0 0 10 0 (0, 0) (100, 0) rfl rfl ?_ ?_ hdisc).1
  · norm_num [find_closest_node, havW, c2Graph, geoWNode, c2NodeB]
  · norm_num [find_closest_node, havW, c2Graph, geoWNode, c2NodeB]

/-- **C3.** For every computed route with positive total distance, each of
the five summary risk values equals the distance-weighted average of the
per-segment averaged risks: each segment's risk times that segment's
distance, summed, divided by the total distance. -/
theorem summary_risk_distance_weighted (G : Graph) (vessel : Option String)
    (rq : RouteRequest) (path_nodes : List NodeId) (speed : ℚ)
    (hpos : 0 < (((consecPairs path_nodes).map (fun p => segCalc G vessel p.1 p.2)).map SegCalc.dist).sum) :
    (buildRouteResponse G vessel rq path_nodes speed).summary.totalPiracyRisk
      = (((consecPairs path_nodes).map (fun p => segCalc G vessel p.1 p.2)).map (fun s => s.piracy * s.dist)).sum
        / (((consecPairs path_nodes).map (fun p => segCalc G vessel p.1 p.2)).map SegCalc.dist).sum
    ∧ (buildRouteResponse G vessel rq path_nodes speed).summary.totalWeatherRisk
      = (((consecPairs path_nodes).map (fun p => segCalc G vessel p.1 p.2)).map (fun s => s.weather * s.dist)).sum
        / (((consecPairs path_nodes).map (fun p => segCalc G vessel p.1 p.2)).map SegCalc.dist).sum
    ∧ (buildRouteResponse G vessel rq path_nodes speed).summary.totalDepthPenalty
      = (((consecPairs path_nodes).map (fun p => segCalc G vessel p.1 p.2)).map (fun s => s.depth * s.dist)).sum
        / (((consecPairs path_nodes).map (fun p => segCalc G vessel p.1 p.2)).map SegCalc.dist).sum
    ∧ (buildRouteResponse G vessel rq path_nodes speed).summary.totalTrafficRisk
      = (((consecPairs path_nodes).map (fun p => segCalc G vessel p.1 p.2)).map (fun s => s.traffic * s.dist)).sum
        / (((consecPairs path_nodes).map (fun p => segCalc G vessel p.1 p.2)).map SegCalc.dist).sum
    ∧ (buildRouteResponse G vessel rq path_nodes speed).summary.totalGeopoliticalRisk
      = (((consecPairs path_nodes).map (fun p => segCalc G vessel p.1 p.2)).map (fun s => s.geo * s.dist)).sum
        / (((consecPairs path_nodes).map (fun p => segCalc G vessel p.1 p.2)).map SegCalc.dist).sum
    ∧ (buildRouteResponse G vessel rq path_nodes speed).summary.totalDistanceNm
      = (((consecPairs path_nodes).map (fun p => segCalc G vessel p.1 p.2)).map SegCalc.dist).sum := by
  have hpos' : 0 < (List.map (SegCalc.dist ∘ fun p => segCalc G vessel p.1 p.2)
      (consecPairs path_nodes)).sum := by
    rw [← List.map_map]; exact hpos
  simp [buildRouteResponse, if_pos hpos]
  refine ⟨?_, ?_, ?_, ?_, ?_⟩ <;> exact fun hle => absurd hpos' (not_lt.mpr hle)

/-- **C10.** When origin and destination snap to the same graph node,
`compute_route` succeeds and returns a one-coordinate path with no
segments, zero total distance, zero estimated duration, and all five
summary risk averages zero (the distance-weighted average is guarded, not
divided by zero). -/
theorem same_node_route_degenerate
    (hav : ℚ → ℚ → ℚ → ℚ → ℚ) (aliases : List (String × String)) (G : Graph)
    (rq : RouteRequest) (ports : List (String × Port)) (speed : ℚ)
    (olat olon dlat dlon : ℚ) (n : NodeId)
    (hro : resolveOD rq.origin ports = .ok (olat, olon))
    (hrd : resolveOD rq.destination ports = .ok (dlat, dlon))
    (hfo : find_closest_node hav G olat olon = some n)
    (hfd : find_closest_node hav G dlat dlon = some n) :
    compute_route hav aliases G rq ports speed
      = .ok (buildRouteResponse G (infer_vessel_iso3 aliases rq ports) rq [n] speed)
    ∧ (buildRouteResponse G (infer_vessel_iso3 aliases rq ports) rq [n] speed).path.coordinates.length = 1
    ∧ (buildRouteResponse G (infer_vessel_iso3 aliases rq ports) rq [n] speed).path.segments = []
    ∧ (buildRouteResponse G (infer_vessel_iso3 aliases rq ports) rq [n] speed).summary.totalDistanceNm = 0
    ∧ (buildRouteResponse G (infer_vessel_iso3 aliases rq ports) rq [n] speed).summary.estimatedDurationHours = 0
    ∧ (buildRouteResponse G (infer_vessel_iso3 aliases rq ports) rq [n] speed).summary.totalPiracyRisk = 0
    ∧ (buildRouteResponse G (infer_vessel_iso3 aliases rq ports) rq [n] speed).summary.totalWeatherRisk = 0
    ∧ (buildRouteResponse G (infer_vessel_iso3 aliases rq ports) rq [n] speed).summary.totalDepthPenalty = 0
    ∧ (buildRouteResponse G (infer_vessel_iso3 aliases rq ports) rq [n] speed).summary.totalTrafficRisk = 0
    ∧ (buildRouteResponse G (infer_vessel_iso3 aliases rq ports) rq [n] speed).summary.totalGeopoliticalRisk = 0 := by
  have hdfs : dfsPath G n (G.nodes.length + 1) [] n = some [n] := by
    rw [dfsPath, if_pos rfl]
  refine ⟨?_, ?_, ?_, ?_, ?_, ?_, ?_, ?_, ?_, ?_⟩
  · simp only [compute_route, hro, hrd, hfo, hfd, hdfs]
  all_goals simp [buildRouteResponse, consecPairs]

/-- Three-node path graph for the C3 witness: a long low-ish-risk segment
(distance 10, averaged piracy 3) and a short segment (distance 1, averaged
piracy 2). -/
def c3n1 : NodeData := ⟨0, 0, 2, 0, 0, none, none, none, none⟩

/-- Middle node of the C3 witness path. -/
def c3n2 : NodeData := ⟨1, 0, 4, 0, 0, none, none, none, none⟩

/-- Last node of the C3 witness path. -/
def c3n3 : NodeData := ⟨2, 0, 0, 0, 0, none, none, none, none⟩

/-- The C3 witness graph. -/
def c3Graph : Graph :=
  ⟨[((0, 0), c3n1), ((1, 0), c3n2), ((2, 0), c3n3)],
   [((0, 0), (1, 0), 10), ((1, 0), (2, 0), 1)]⟩

/-- The walked node sequence of the C3 witness. -/
def c3Path : List NodeId := [(0, 0), (1, 0), (2, 0)]

/-- Witness for C3: segment averages 3 (distance 10) and 2 (distance 1)
give the distance-weighted summary `32/11 ≈ 2.91`, not the naive
per-segment mean `5/2`. -/
theorem summary_risk_distance_weighted_witness :
    0 < (((consecPairs c3Path).map (fun p => segCalc c3Graph none p.1 p.2)).map SegCalc.dist).sum
    ∧ (buildRouteResponse c3Graph none c2Request c3Path 20).summary.totalPiracyRisk = 32 / 11
    ∧ (32 / 11 : ℚ) ≠ (3 + 2) / 2 := by
  have hpos : 0 < (((consecPairs c3Path).map (fun p => segCalc c3Graph none p.1 p.2)).map SegCalc.dist).sum := by
    norm_num +decide [consecPairs, c3Path, segCalc, c3Graph, Graph.edgeDistance?, List.findSome?,
      c3n1, c3n2, c3n3]
  refine ⟨hpos, ?_, by norm_num⟩
  have h := (summary_risk_distance_weighted c3Graph none c2Request c3Path 20 hpos).1
  rw [h]
  norm_num +decide [consecPairs, c3Path, segCalc, c3Graph, Graph.edgeDistance?, Graph.nodeData,
    geopolitical_node_penalty, List.findSome?, List.find?, c3n1, c3n2, c3n3]

/-- Same-node request for the C10 witness. -/
def c10Request : RouteRequest :=
  ⟨⟨ODType.coordinates, none, some 0, some 0⟩,
   ⟨ODType.coordinates, none, some 0, some 0⟩, Mode.fast, none⟩

/-- Witness for C10 on the one-node graph: origin and destination snap to
the same node. -/
theorem same_node_route_degenerate_witness :
    compute_route havW [] geoWGraph c10Request [] 20
      = .ok (buildRouteResponse geoWGraph (infer_vessel_iso3 [] c10Request []) c10Request [(0, 0)] 20)
    ∧ (buildRouteResponse geoWGraph (infer_vessel_iso3 [] c10Request []) c10Request [(0, 0)] 20).path.coordinates.length = 1
    ∧ (buildRouteResponse geoWGraph (infer_vessel_iso3 [] c10Request []) c10Request [(0, 0)] 20).path.segments = []
    ∧ (buildRouteResponse geoWGraph (infer_vessel_iso3 [] c10Request []) c10Request [(0, 0)] 20).summary.totalDistanceNm = 0
    ∧ (buildRouteResponse geoWGraph (infer_vessel_iso3 [] c10Request []) c10Request [(0, 0)] 20).summary.estimatedDurationHours = 0
    ∧ (buildRouteResponse geoWGraph (infer_vessel_iso3 [] c10Request []) c10Request [(0, 0)] 20).summary.totalPiracyRisk = 0
    ∧ (buildRouteResponse geoWGraph (infer_vessel_iso3 [] c10Request []) c10Request [(0, 0)] 20).summary.totalWeatherRisk = 0
    ∧ (buildRouteResponse geoWGraph (infer_vessel_iso3 [] c10Request []) c10Request [(0, 0)] 20).summary.totalDepthPenalty = 0
    ∧ (buildRouteResponse geoWGraph (infer_vessel_iso3 [] c10Request []) c10Request [(0, 0)] 20).summary.totalTrafficRisk = 0
    ∧ (buildRouteResponse geoWGraph (infer_vessel_iso3 [] c10Request []) c10Request [(0, 0)] 20).summary.totalGeopoliticalRisk = 0 :=
  same_node_route_degenerate havW [] geoWGraph c10Request [] 20 0 0 0 0 (0, 0) rfl rfl
    (by norm_num [find_closest_node, havW, geoWGraph, geoWNode])
    (by norm_num [find_closest_node, havW, geoWGraph, geoWNode])

/-- **C9 (amended).** The emitted segment reports the edge distance used
for costing and exactly the weather/piracy/depth arithmetic means that the
cost function uses; the cost function is precisely the distance plus the
per-mode coefficients times these same means together with the traffic and
geopolitics means, which have no `RouteSegment` field. -/
theorem segment_reports_costed_averages (G : Graph) (vessel : Option String)
    (mode : Mode) (u v : NodeId) (attrs : Option ℚ) :
    (mkSegment G vessel u v).distanceNm = (G.edgeDistance? u v).getD 0
    ∧ (mkSegment G vessel u v).piracyRisk
        = ((G.nodeData u).piracy_risk + (G.nodeData v).piracy_risk) / 2
    ∧ (mkSegment G vessel u v).weatherRisk
        = ((G.nodeData u).weather_risk + (G.nodeData v).weather_risk) / 2
    ∧ (mkSegment G vessel u v).depthPenalty
        = ((G.nodeData u).depth_penalty + (G.nodeData v).depth_penalty) / 2
    ∧ weight mode G vessel u v attrs
        = attrs.getD 1
          + (lambdas mode).1 * (((G.nodeData u).piracy_risk + (G.nodeData v).piracy_risk) / 2)
          + (lambdas mode).2.1 * (((G.nodeData u).weather_risk + (G.nodeData v).weather_risk) / 2)
          + (lambdas mode).2.2.1 * (((G.nodeData u).depth_penalty + (G.nodeData v).depth_penalty) / 2)
          + (lambdas mode).2.2.2.1 * (((G.nodeData u).traffic_risk.getD 0 + (G.nodeData v).traffic_risk.getD 0) / 2)
          + (lambdas mode).2.2.2.2 * ((geopolitical_node_penalty G vessel u + geopolitical_node_penalty G vessel v) / 2) :=
  ⟨rfl, rfl, rfl, rfl, rfl⟩

/-- Node with the `traffic_risk` attribute set to 0. -/
def c9NodeLowT : NodeData := ⟨0, 0, 1, 1, 1, some 0, none, none, none⟩

/-- Same node but with `traffic_risk` 3. -/
def c9NodeHighT : NodeData := ⟨0, 0, 1, 1, 1, some 3, none, none, none⟩

/-- The common second endpoint. -/
def c9Other : NodeData := ⟨1, 0, 1, 1, 1, some 0, none, none, none⟩

/-- Graph whose edge (u,v) has a low-traffic endpoint. -/
def c9G1 : Graph := ⟨[((0, 0), c9NodeLowT), ((1, 0), c9Other)], [((0, 0), (1, 0), 5)]⟩

/-- The same graph except the endpoint's `traffic_risk` is 3. -/
def c9G2 : Graph := ⟨[((0, 0), c9NodeHighT), ((1, 0), c9Other)], [((0, 0), (1, 0), 5)]⟩

/-- **C9 counterexample.** The emitted segment does not carry every risk
dimension entering the cost function: raising one endpoint's traffic risk
changes the traffic mean used for costing (balanced-mode cost 28 vs 34)
while the emitted `RouteSegment` is byte-for-byte identical — so no
reported segment value equals the traffic mean used when weighting the
edge. -/
theorem segment_omits_traffic_counterexample :
    mkSegment c9G1 none (0, 0) (1, 0) = mkSegment c9G2 none (0, 0) (1, 0)
    ∧ weight Mode.balanced c9G1 none (0, 0) (1, 0) (some 5)
        ≠ weight Mode.balanced c9G2 none (0, 0) (1, 0) (some 5)
    ∧ ((c9G1.nodeData (0, 0)).traffic_risk.getD 0 + (c9G1.nodeData (1, 0)).traffic_risk.getD 0) / 2
        ≠ ((c9G2.nodeData (0, 0)).traffic_risk.getD 0 + (c9G2.nodeData (1, 0)).traffic_risk.getD 0) / 2 := by
  refine ⟨?_, ?_, ?_⟩ <;>
    norm_num +decide [mkSegment, segCalc, weight, lambdas, geopolitical_node_penalty,
      Graph.nodeData, Graph.edgeDistance?, c9G1, c9G2, c9NodeLowT, c9NodeHighT, c9Other,
      List.find?, List.findSome?]

/- ## Grid graph builder (`backend/graph_builder.py`) -/

/-- `np.arange(a, b, s)` for positive step on exact rationals:
`a + k·s` for `k < ⌈(b − a)/s⌉`. -/
def arange (a b s : ℚ) : List ℚ :=
  (List.range (⌈(b - a) / s⌉).toNat).map (fun k => a + (k : ℚ) * s)

/-- `lat_values = np.arange(lat_min, lat_max + GRID_LAT_STEP, GRID_LAT_STEP)`. -/
def gridLatValues (lat_range : ℚ × ℚ) : List ℚ :=
  arange lat_range.1 (lat_range.2 + GRID_LAT_STEP) GRID_LAT_STEP

/-- `lon_values = np.arange(lon_min, lon_max + GRID_LON_STEP, GRID_LON_STEP)`. -/
def gridLonValues (lon_range : ℚ × ℚ) : List ℚ :=
  arange lon_range.1 (lon_range.2 + GRID_LON_STEP) GRID_LON_STEP

/-- `compute_node_risks(lat, lon, ...)`: max polygon level containing the
point for piracy and weather (0 when none), shallow-water depth penalty.
Polygons are abstracted to containment tests paired with their level, as
prepared by `build_risk_polygons`. -/
def compute_node_risks (lat lon : ℚ)
    (piracy_polygons weather_polygons : List ((ℚ → ℚ → Bool) × ℚ))
    (isShallow : ℚ → ℚ → Bool) : ℚ × ℚ × ℚ :=
  let piracy_risk := piracy_polygons.foldl
    (fun acc p => if p.1 lat lon then max acc p.2 else acc) 0
  let weather_risk := weather_polygons.foldl
    (fun acc p => if p.1 lat lon then max acc p.2 else acc) 0
  let depth_penalty : ℚ := if isShallow lat lon then 1 else 0
  (piracy_risk, weather_risk, depth_penalty)

/-- The node built for a surviving lattice point of `build_grid_graph`
(`none` when the bathymetry adapter classifies the point as land).
`traffic_risk` and `geo_zones` are not set at build time. -/
def gridNode (isLand isShallow : ℚ → ℚ → Bool)
    (piracy_polygons weather_polygons : List ((ℚ → ℚ → Bool) × ℚ))
    (geoZones : List GeoZone) (la lo : ℚ) : Option (NodeId × NodeData) :=
  if isLand la lo then none
  else
    let risks := compute_node_risks la lo piracy_polygons weather_polygons isShallow
    let geo := buildNodeGeo geoZones la lo
    some (quantId la lo,
      { lat := la, lon := lo
        piracy_risk := risks.1
        weather_risk := risks.2.1
        depth_penalty := risks.2.2
        traffic_risk := none
        geo_base_risk := some geo.1
        geo_target_flags := some geo.2
        geo_zones := none })

/-- The node pass of `build_grid_graph`. -/
def gridNodes (isLand isShallow : ℚ → ℚ → Bool)
    (piracy_polygons weather_polygons : List ((ℚ → ℚ → Bool) × ℚ))
    (geoZones : List GeoZone) (lat_range lon_range : ℚ × ℚ) :
    List (NodeId × NodeData) :=
  (gridLatValues lat_range).flatMap (fun la =>
    (gridLonValues lon_range).filterMap
      (gridNode isLand isShallow piracy_polygons weather_polygons geoZones la))

/-- `node_id in G.nodes`. -/
def gridHasNode (ns : List (NodeId × NodeData)) (idv : NodeId) : Bool :=
  ns.any (fun p => p.1 = idv)

/-- The four axis-aligned lattice neighbours (N/S/E/W, no diagonals). -/
def gridNeighbors (la lo : ℚ) : List (ℚ × ℚ) :=
  [(la + GRID_LAT_STEP, lo), (la - GRID_LAT_STEP, lo),
   (la, lo + GRID_LON_STEP), (la, lo - GRID_LON_STEP)]

/-- The edge pass of `build_grid_graph`: for every lattice point whose node
survived, connect each surviving neighbour with
`distance_nm = haversine_km · 0.539957`. -/
def gridEdges (ns : List (NodeId × NodeData)) (hav : ℚ → ℚ → ℚ → ℚ → ℚ)
    (lat_range lon_range : ℚ × ℚ) : List (NodeId × NodeId × ℚ) :=
  (gridLatValues lat_range).flatMap (fun la =>
    (gridLonValues lon_range).flatMap (fun lo =>
      if gridHasNode ns (quantId la lo) then
        (gridNeighbors la lo).filterMap (fun nb =>
          if gridHasNode ns (quantId nb.1 nb.2) then
            some (quantId la lo, quantId nb.1 nb.2,
              hav la lo nb.1 nb.2 * (539957 / 1000000))
          else none)
      else []))

/-- `build_grid_graph(lat_range, lon_range)` with its external
collaborators (bathymetry adapter, polygon layers, haversine) as
parameters. -/
def build_grid_graph (isLand isShallow : ℚ → ℚ → Bool)
    (piracy_polygons weather_polygons : List ((ℚ → ℚ → Bool) × ℚ))
    (geoZones : List GeoZone) (hav : ℚ → ℚ → ℚ → ℚ → ℚ)
    (lat_range lon_range : ℚ × ℚ) : Graph :=
  let ns := gridNodes isLand isShallow piracy_polygons weather_polygons geoZones
    lat_range lon_range
  ⟨ns, gridEdges ns hav lat_range lon_range⟩

lemma mem_gridNodes_elim {isLand isShallow : ℚ → ℚ → Bool}
    {pP wP : List ((ℚ → ℚ → Bool) × ℚ)} {geoZones : List GeoZone}
    {lat_range lon_range : ℚ × ℚ} {i : NodeId} {d : NodeData}
    (h : (i, d) ∈ gridNodes isLand isShallow pP wP geoZones lat_range lon_range) :
    d.lat ∈ gridLatValues lat_range ∧ d.lon ∈ gridLonValues lon_range ∧
    isLand d.lat d.lon = false ∧ i = quantId d.lat d.lon := by
  simp only [gridNodes, List.mem_flatMap, List.mem_filterMap] at h
  obtain ⟨la, hla, lo, hlo, hf⟩ := h
  rw [gridNode] at hf
  split at hf
  · cases hf
  · rename_i hland
    obtain ⟨h1, h2⟩ := Prod.mk.injEq .. ▸ Option.some.injEq _ _ ▸ hf
    subst h2
    exact ⟨hla, hlo, Bool.not_eq_true _ ▸ hland, h1.symm⟩

lemma gridHasNode_true {ns : List (NodeId × NodeData)} {i : NodeId} {d : NodeData}
    (h : (i, d) ∈ ns) : gridHasNode ns i = true :=
  List.any_eq_true.mpr ⟨(i, d), h, by simp⟩

lemma gridEdges_mem {ns : List (NodeId × NodeData)} (hav : ℚ → ℚ → ℚ → ℚ → ℚ)
    {lat_range lon_range : ℚ × ℚ} {la lo la2 lo2 : ℚ}
    (hla : la ∈ gridLatValues lat_range) (hlo : lo ∈ gridLonValues lon_range)
    (hnb : (la2, lo2) ∈ gridNeighbors la lo)
    (h1 : gridHasNode ns (quantId la lo) = true)
    (h2 : gridHasNode ns (quantId la2 lo2) = true) :
    (quantId la lo, quantId la2 lo2, hav la lo la2 lo2 * (539957 / 1000000))
      ∈ gridEdges ns hav lat_range lon_range := by
  simp only [gridEdges, List.mem_flatMap]
  refine ⟨la, hla, lo, hlo, ?_⟩
  rw [if_pos h1]
  exact List.mem_filterMap.mpr ⟨(la2, lo2), hnb, by rw [if_pos h2]⟩

/-- **C7.** For every graph build: (a) no node exists at a lattice point
the bathymetry adapter classifies as land; (b) for every pair of nodes at
4-neighbour lattice positions an edge exists between them whose
`distance_nm` is the haversine kilometre distance times the 0.539957
nautical-mile factor; (c) every edge endpoint is an existing node. -/
theorem grid_graph_invariants (isLand isShallow : ℚ → ℚ → Bool)
    (piracy_polygons weather_polygons : List ((ℚ → ℚ → Bool) × ℚ))
    (geoZones : List GeoZone) (hav : ℚ → ℚ → ℚ → ℚ → ℚ)
    (lat_range lon_range : ℚ × ℚ) :
    (∀ (i : NodeId) (d : NodeData),
      (i, d) ∈ (build_grid_graph isLand isShallow piracy_polygons weather_polygons
        geoZones hav lat_range lon_range).nodes → isLand d.lat d.lon = false)
    ∧ (∀ (i1 : NodeId) (d1 : NodeData) (i2 : NodeId) (d2 : NodeData),
        (i1, d1) ∈ (build_grid_graph isLand isShallow piracy_polygons weather_polygons
          geoZones hav lat_range lon_range).nodes →
        (i2, d2) ∈ (build_grid_graph isLand isShallow piracy_polygons weather_polygons
          geoZones hav lat_range lon_range).nodes →
        ((d2.lat = d1.lat + GRID_LAT_STEP ∧ d2.lon = d1.lon)
          ∨ (d2.lat = d1.lat - GRID_LAT_STEP ∧ d2.lon = d1.lon)
          ∨ (d2.lat = d1.lat ∧ d2.lon = d1.lon + GRID_LON_STEP)
          ∨ (d2.lat = d1.lat ∧ d2.lon = d1.lon - GRID_LON_STEP)) →
        (i1, i2, hav d1.lat d1.lon d2.lat d2.lon * (539957 / 1000000))
          ∈ (build_grid_graph isLand isShallow piracy_polygons weather_polygons
            geoZones hav lat_range lon_range).edges)
    ∧ (∀ (u v : NodeId) (dq : ℚ),
        (u, v, dq) ∈ (build_grid_graph isLand isShallow piracy_polygons weather_polygons
          geoZones hav lat_range lon_range).edges →
        (∃ d, (u, d) ∈ (build_grid_graph isLand isShallow piracy_polygons weather_polygons
          geoZones hav lat_range lon_range).nodes)
        ∧ ∃ d, (v, d) ∈ (build_grid_graph isLand isShallow piracy_polygons weather_polygons
          geoZones hav lat_range lon_range).nodes) := by
  refine ⟨?_, ?_, ?_⟩
  · intro i d h
    exact (mem_gridNodes_elim h).2.2.1
  · intro i1 d1 i2 d2 h1 h2 hcase
    obtain ⟨hla1, hlo1, -, hid1⟩ := mem_gridNodes_elim h1
    obtain ⟨hla2, hlo2, -, hid2⟩ := mem_gridNodes_elim h2
    have hnb : (d2.lat, d2.lon) ∈ gridNeighbors d1.lat d1.lon := by
      rcases hcase with ⟨ha, hb⟩ | ⟨ha, hb⟩ | ⟨ha, hb⟩ | ⟨ha, hb⟩ <;>
        simp [gridNeighbors, ha, hb]
    have hh1 : gridHasNode (gridNodes isLand isShallow piracy_polygons weather_polygons
        geoZones lat_range lon_range) (quantId d1.lat d1.lon) = true :=
      hid1 ▸ gridHasNode_true h1
    have hh2 : gridHasNode (gridNodes isLand isShallow piracy_polygons weather_polygons
        geoZones lat_range lon_range) (quantId d2.lat d2.lon) = true :=
      hid2 ▸ gridHasNode_true h2
    have hmem := gridEdges_mem hav hla1 hlo1 hnb hh1 hh2
    rw [hid1, hid2]
    exact hmem
  · intro u v dq h
    simp only [build_grid_graph, gridEdges, List.mem_flatMap] at h
    obtain ⟨la, hla, lo, hlo, hin⟩ := h
    split at hin
    · rename_i hhas1
      obtain ⟨nb, hnbmem, hsome⟩ := List.mem_filterMap.mp hin
      split at hsome
      · rename_i hhas2
        have heq := Option.some.inj hsome
        have hu : quantId la lo = u := congrArg Prod.fst heq
        have hv : quantId nb.1 nb.2 = v := congrArg (fun p => p.2.1) heq
        constructor
        · obtain ⟨⟨a, b⟩, hab, hdec⟩ := List.any_eq_true.mp hhas1
          have ha : a = u := hu ▸ of_decide_eq_true hdec
          exact ⟨b, ha ▸ hab⟩
        · obtain ⟨⟨a, b⟩, hab, hdec⟩ := List.any_eq_true.mp hhas2
          have ha : a = v := hv ▸ of_decide_eq_true hdec
          exact ⟨b, ha ▸ hab⟩
      · cases hsome
    · cases hin

/-- A bathymetry adapter classifying everything as water (and nothing as
shallow), for the C7 witness. -/
def allWater : ℚ → ℚ → Bool := fun _ _ => false

/-- The node the witness build places at lattice point (0, 0). -/
def c7D1 : NodeData := ⟨0, 0, 0, 0, 0, none, some 0, some [], none⟩

/-- The node the witness build places at lattice point (0.1, 0). -/
def c7D2 : NodeData := ⟨1/10, 0, 0, 0, 0, none, some 0, some [], none⟩

/-- Witness for C7: on the 2×1 all-water lattice with ranges
`lat ∈ [0, 0.1]`, `lon ∈ [0, 0]`, the two lattice nodes exist and the
North-neighbour edge between them carries the converted haversine
distance. -/
theorem grid_graph_invariants_witness :
    (((0, 0) : NodeId), (((100, 0) : NodeId),
        havW 0 0 (1/10) 0 * (539957 / 1000000)))
      ∈ (build_grid_graph allWater allWater [] [] [] havW (0, 1/10) (0, 0)).edges := by
  have hr2 : List.range 2 = [0, 1] := rfl
  have hr1 : List.range 1 = [0] := rfl
  have hm1 : (((0, 0) : NodeId), c7D1)
      ∈ (build_grid_graph allWater allWater [] [] [] havW ((0 : ℚ), (1/10 : ℚ)) ((0 : ℚ), (0 : ℚ))).nodes := by
    norm_num [build_grid_graph, gridNodes, gridLatValues, gridLonValues, arange,
      GRID_LAT_STEP, GRID_LON_STEP, hr2, hr1, gridNode, quantId, pyRound,
      compute_node_risks, buildNodeGeo, allWater, c7D1]
    exact ⟨0, by norm_num, by norm_num⟩
  have hm2 : (((100, 0) : NodeId), c7D2)
      ∈ (build_grid_graph allWater allWater [] [] [] havW ((0 : ℚ), (1/10 : ℚ)) ((0 : ℚ), (0 : ℚ))).nodes := by
    norm_num [build_grid_graph, gridNodes, gridLatValues, gridLonValues, arange,
      GRID_LAT_STEP, GRID_LON_STEP, hr2, hr1, gridNode, quantId, pyRound,
      compute_node_risks, buildNodeGeo, allWater, c7D2]
    exact ⟨1, by norm_num, by norm_num⟩
  have h := (grid_graph_invariants allWater allWater [] [] [] havW (0, 1/10) (0, 0)).2.1
    (0, 0) c7D1 (100, 0) c7D2 hm1 hm2
    (Or.inl ⟨by norm_num [c7D1, c7D2, GRID_LAT_STEP], by norm_num [c7D1, c7D2]⟩)
  simpa [c7D1, c7D2] using h
